import Mathlib

/-!
Shallow embedding of `src/error.rs` of whizzbit/nexus-server: the error
normalization layer translating library-specific failures (diesel, jsonwebtoken,
r2d2, argon2, Base64CursorError, async_graphql) into a canonical `Error` record
and its wire encoding.

Modelling conventions:
* Rust `Option<String>` is `Option String`; machine strings are Lean `String`.
* A Rust panic (an `unwrap()` on `None`) is modelled by the translator
  returning `none`: `from_diesel : DieselError → Option Error`, where
  `none` means the translation aborts instead of producing an `Error`.
* Foreign error values are modelled by the data the translator actually
  consumes: a discriminant (kind) plus the string their `Display` impl yields.
* The regex `(?:\w*)(?:\()(\w*)*(?:\))` from the diesel translator is embedded
  as an executable leftmost-match function over `List Char` (`findMatch`),
  with `\w` read as ASCII alphanumeric or underscore.
-/

/-- `ErrorCode` from `src/error.rs`: the closed, client-visible failure
taxonomy. -/
inductive ErrorCode where
  | Base64CursorError
  | ServerError
  | InvalidCredentials
  | InvalidJsonWebToken
  | Unique
  | Unhandled
deriving DecidableEq, Repr

/-- The `thiserror`-derived `Display` of `ErrorCode`: each variant's fixed wire
string (`#[error("...")]` attributes in the source). -/
def ErrorCode.toString : ErrorCode → String
  | .Base64CursorError => "BASE64_CURSOR_ERROR"
  | .ServerError => "SERVER_ERROR"
  | .InvalidCredentials => "INVALID_CREDENTIALS"
  | .InvalidJsonWebToken => "INVALID_JWT"
  | .Unique => "UNIQUE"
  | .Unhandled => "UNHANDLED"

/-- The six `ErrorCode` variants, in source order. -/
def allErrorCodes : List ErrorCode :=
  [.Base64CursorError, .ServerError, .InvalidCredentials,
   .InvalidJsonWebToken, .Unique, .Unhandled]

/-- `Error` from `src/error.rs`: the canonical error record. -/
structure Error where
  field : Option String
  message : Option String
  code : ErrorCode
deriving DecidableEq, Repr

/-- `Error::new(field, message, code)`. -/
def Error.new (field message : String) (code : ErrorCode) : Error :=
  { field := some field, message := some message, code := code }

/-- `Error::code(code)`: code-only construction (named `codeOnly` here because
`Error.code` is the record projection). -/
def Error.codeOnly (code : ErrorCode) : Error :=
  { field := none, message := none, code := code }

/-- `Error::server_error()`. -/
def Error.server_error : Error :=
  { field := none, message := none, code := .ServerError }

/-- `Error::unique(field, value)` from `src/error.rs`. -/
def Error.unique (field : String) (value : Option String) : Error :=
  match value with
  | some v =>
    { field := some field,
      message := some ("A " ++ field ++ " with " ++ v ++ " already exists"),
      code := .Unique }
  | none =>
    { field := some field,
      message := some ("The " ++ field ++ " already exists"),
      code := .Unique }

/-- `Error::unhandled(err)` from `src/error.rs`; `err` is modelled by the
string its `Display` yields (`err.to_string()`). The field label keeps the
source's exact text, typos included. -/
def Error.unhandled (err : String) : Error :=
  { field := some "An unhandled erorr ocurred",
    message := some err,
    code := .Unhandled }

/-! ### Wire encoder: `impl From<Error> for async_graphql::Error` -/

/-- The wire-level shape produced for async_graphql: a top-level message plus
an extension object, modelled as an association list in insertion order. -/
structure GqlWireError where
  message : String
  extensions : List (String × String)
deriving DecidableEq, Repr

/-- `impl From<Error> for async_graphql::Error`: fixed top-level message, then
`extend_with` sets `message` (if present), `field` (if present) and `code`
(always), in that order. -/
def toAsyncGraphQL (err : Error) : GqlWireError :=
  { message := "An error occurred",
    extensions :=
      (match err.message with
        | some m => [("message", m)]
        | none => []) ++
      (match err.field with
        | some f => [("field", f)]
        | none => []) ++
      [("code", err.code.toString)] }

/-- Whether the extension object has an entry under key `k`. -/
def hasKey (l : List (String × String)) (k : String) : Bool :=
  l.any (fun p => p.1 == k)

/-! ### The regex `(?:\w*)(?:\()(\w*)*(?:\))` of the diesel translator -/

/-- `\w` of the source regex, read over ASCII: alphanumeric or underscore. -/
def isWordChar (c : Char) : Bool :=
  c.isAlphanum || c == '_'

/-- Splits off the maximal leading run of word characters (the greedy `\w*`). -/
def wordRun : List Char → List Char × List Char
  | [] => ([], [])
  | c :: cs =>
    if isWordChar c then
      let p := wordRun cs
      (c :: p.1, p.2)
    else ([], c :: cs)

/-- Tries to match `(?:\w*)(?:\()(\w*)*(?:\))` at the start of `s`: a word run,
a literal `(`, a word run (capture group 1), a literal `)`. On success returns
(whole match = capture group 0, capture group 1). Group 1 is the word run
inside the parentheses, per the repeated-group capture of the regex crate. -/
def matchAt (s : List Char) : Option (List Char × List Char) :=
  let p := wordRun s
  match p.2 with
  | '(' :: rest =>
    let q := wordRun rest
    match q.2 with
    | ')' :: _ => some (p.1 ++ '(' :: (q.1 ++ [')']), q.1)
    | _ => none
  | _ => none

/-- Leftmost match: try `matchAt` at each start position, first success wins
(the regex crate's leftmost-match semantics). -/
def findMatch : List Char → Option (List Char × List Char)
  | [] => none
  | c :: cs =>
    match matchAt (c :: cs) with
    | some r => some r
    | none => findMatch cs

/-- `Regex::new(r"(?:\w*)(?:\()(\w*)*(?:\))").captures(s)`, restricted to the
two groups the source reads: `captures.get(0)` and `captures.get(1)`. -/
def regexCaptures (s : String) : Option (String × String) :=
  (findMatch s.data).map (fun p => (String.mk p.1, String.mk p.2))

/-! ### diesel failures -/

/-- `diesel::result::DatabaseErrorKind` (the variants relevant to matching;
the source only distinguishes `UniqueViolation` from the rest). -/
inductive DatabaseErrorKind where
  | UniqueViolation
  | ForeignKeyViolation
  | NotNullViolation
  | CheckViolation
  | UnknownKind
deriving DecidableEq, Repr

/-- The part of `diesel`'s `DatabaseErrorInformation` the translator consumes:
`message()` and `details()`. -/
structure DatabaseErrorInformation where
  message : String
  details : Option String
deriving DecidableEq, Repr

/-- `diesel::result::Error`: the `DatabaseError` variant the translator
inspects, plus the other variants collapsed to their display strings. -/
inductive DieselError where
  | DatabaseError : DatabaseErrorKind → DatabaseErrorInformation → DieselError
  | NotFound : DieselError
  | OtherVariant : String → DieselError
deriving DecidableEq, Repr

/-- `Display` of `diesel::result::Error`: a `DatabaseError` displays its
`message()`; `NotFound` displays "Record not found"; other variants carry
their display string. -/
def DieselError.display : DieselError → String
  | .DatabaseError _ info => info.message
  | .NotFound => "Record not found"
  | .OtherVariant s => s

/-- `impl From<diesel::result::Error> for Error`. The `UniqueViolation` branch
runs `re.captures(info.details().unwrap()).unwrap()` and then
`captures.get(0).unwrap()` / `captures.get(1).unwrap()`; each failing `unwrap`
is a panic, modelled as `none`. -/
def from_diesel (err : DieselError) : Option Error :=
  match err with
  | .DatabaseError kind info =>
    match kind with
    | .UniqueViolation =>
      match info.details with
      | none => none
      | some d =>
        match regexCaptures d with
        | none => none
        | some caps => some (Error.unique caps.1 (some caps.2))
    | _ => some (Error.unhandled (DieselError.DatabaseError kind info).display)
  | e => some (Error.unhandled e.display)

/-! ### jsonwebtoken failures -/

/-- `jsonwebtoken::errors::ErrorKind` (the variants relevant to matching; the
source only distinguishes `InvalidToken` from the rest). -/
inductive JwtErrorKind where
  | InvalidToken
  | InvalidSignature
  | ExpiredSignature
  | InvalidIssuer
  | OtherKind
deriving DecidableEq, Repr

/-- `jsonwebtoken::errors::Error`: its kind plus its display string. -/
structure JwtError where
  kind : JwtErrorKind
  display : String
deriving DecidableEq, Repr

/-- `impl From<jsonwebtoken::errors::Error> for Error`. -/
def from_jsonwebtoken (err : JwtError) : Error :=
  match err.kind with
  | .InvalidToken => Error.codeOnly .InvalidJsonWebToken
  | _ => Error.unhandled err.display

/-! ### The remaining translators -/

/-- `impl From<r2d2::Error> for Error`: the input is ignored entirely (modelled
by its display string). -/
def from_r2d2 (_err : String) : Error :=
  Error.codeOnly .ServerError

/-- `impl From<argon2::Error> for Error`: wraps the display string. -/
def from_argon2 (err : String) : Error :=
  Error.unhandled err

/-- `impl From<Base64CursorError> for Error`: the input is ignored (modelled by
its display string). -/
def from_base64_cursor (_err : String) : Error :=
  Error.codeOnly .Base64CursorError

/-- `impl From<async_graphql::Error> for Error`: the input is logged and
otherwise ignored (modelled by its display string). -/
def from_async_graphql (_err : String) : Error :=
  Error.server_error

/-! ## Theorems -/

/-- C4: the `ErrorCode` → wire-string mapping is total over the six variants,
hits exactly the closed vocabulary, and is injective (the six strings are
pairwise distinct). -/
theorem errorCode_toString_total_injective :
    (ErrorCode.toString .Base64CursorError = "BASE64_CURSOR_ERROR"
      ∧ ErrorCode.toString .ServerError = "SERVER_ERROR"
      ∧ ErrorCode.toString .InvalidCredentials = "INVALID_CREDENTIALS"
      ∧ ErrorCode.toString .InvalidJsonWebToken = "INVALID_JWT"
      ∧ ErrorCode.toString .Unique = "UNIQUE"
      ∧ ErrorCode.toString .Unhandled = "UNHANDLED")
    ∧ (∀ c : ErrorCode, c ∈ allErrorCodes)
    ∧ (allErrorCodes.map ErrorCode.toString).Nodup := by
  refine ⟨⟨rfl, rfl, rfl, rfl, rfl, rfl⟩, fun c => ?_, by decide⟩
  cases c <;> simp [allErrorCodes]

/-- C8: `Error::unique(field, value)` always yields code `Unique` and the
given field; the message is "A {field} with {value} already exists" when a
value is present and "The {field} already exists" otherwise. -/
theorem unique_spec (f : String) :
    (∀ v : String, Error.unique f (some v) =
      { field := some f,
        message := some ("A " ++ f ++ " with " ++ v ++ " already exists"),
        code := .Unique })
    ∧ Error.unique f none =
      { field := some f,
        message := some ("The " ++ f ++ " already exists"),
        code := .Unique } :=
  ⟨fun _ => rfl, rfl⟩

/-- C9: `Error::unhandled(cause)` yields code `Unhandled`, message equal to the
stringified cause, and a fixed field label independent of the cause. -/
theorem unhandled_spec (cause : String) :
    Error.unhandled cause =
      { field := some "An unhandled erorr ocurred",
        message := some cause,
        code := .Unhandled } :=
  rfl

/-- C6: every connection-pool (r2d2) failure maps to code `ServerError` with
field and message absent, and its wire encoding is one fixed value carrying no
pool-internal detail. -/
theorem r2d2_server_error (e : String) :
    from_r2d2 e = { field := none, message := none, code := .ServerError }
    ∧ toAsyncGraphQL (from_r2d2 e) =
      { message := "An error occurred", extensions := [("code", "SERVER_ERROR")] } :=
  ⟨rfl, rfl⟩

/-- C7: every upstream async_graphql failure maps to `server_error()`:
field and message absent, code `ServerError`. -/
theorem async_graphql_server_error (e : String) :
    from_async_graphql e =
      { field := none, message := none, code := .ServerError } :=
  rfl

/-- C5: a jsonwebtoken failure of kind `InvalidToken` maps to
`Error{field: None, message: None, code: InvalidJsonWebToken}`; every other
kind maps to `unhandled` of the original cause. -/
theorem jsonwebtoken_translation (e : JwtError) :
    (e.kind = .InvalidToken →
      from_jsonwebtoken e =
        { field := none, message := none, code := .InvalidJsonWebToken })
    ∧ (e.kind ≠ .InvalidToken →
      from_jsonwebtoken e = Error.unhandled e.display) := by
  obtain ⟨k, d⟩ := e
  cases k <;> simp [from_jsonwebtoken, Error.codeOnly]

/-- C5 witness: the theorem applied at kind `InvalidToken` and at kind
`ExpiredSignature`. -/
theorem jsonwebtoken_translation_witness :
    from_jsonwebtoken ⟨.InvalidToken, "boom"⟩ =
      { field := none, message := none, code := .InvalidJsonWebToken }
    ∧ from_jsonwebtoken ⟨.ExpiredSignature, "expired"⟩ =
      Error.unhandled "expired" :=
  ⟨(jsonwebtoken_translation ⟨.InvalidToken, "boom"⟩).1 rfl,
   (jsonwebtoken_translation ⟨.ExpiredSignature, "expired"⟩).2 (by decide)⟩

/-- C3: the wire encoding of every canonical `Error` has the fixed top-level
message "An error occurred"; its extension object carries `code` (with the
wire string of the record's code) always, `message` iff the record's message
is set, and `field` iff the record's field is set. -/
theorem wire_encoding_spec (e : Error) :
    (toAsyncGraphQL e).message = "An error occurred"
    ∧ ("code", e.code.toString) ∈ (toAsyncGraphQL e).extensions
    ∧ (hasKey (toAsyncGraphQL e).extensions "message" = true ↔ e.message.isSome = true)
    ∧ (hasKey (toAsyncGraphQL e).extensions "field" = true ↔ e.field.isSome = true) := by
  obtain ⟨f, m, c⟩ := e
  cases f <;> cases m <;>
    simp [toAsyncGraphQL, hasKey]

/-- C3 witness: the theorem applied at a concrete record with a field set and
no message. -/
theorem wire_encoding_spec_witness :
    (toAsyncGraphQL ⟨some "email", none, .Unique⟩).message = "An error occurred"
    ∧ hasKey (toAsyncGraphQL ⟨some "email", none, .Unique⟩).extensions "field" = true :=
  ⟨(wire_encoding_spec ⟨some "email", none, .Unique⟩).1,
   (wire_encoding_spec ⟨some "email", none, .Unique⟩).2.2.2.mpr rfl⟩

/-- C10: no translator of this module ever yields code `InvalidCredentials`:
that variant is reachable only through direct constructor calls. -/
theorem no_translator_invalid_credentials :
    (∀ e : DieselError, ∀ r : Error,
      from_diesel e = some r → r.code ≠ ErrorCode.InvalidCredentials)
    ∧ (∀ e : JwtError, (from_jsonwebtoken e).code ≠ ErrorCode.InvalidCredentials)
    ∧ (∀ e : String, (from_r2d2 e).code ≠ ErrorCode.InvalidCredentials)
    ∧ (∀ e : String, (from_argon2 e).code ≠ ErrorCode.InvalidCredentials)
    ∧ (∀ e : String, (from_base64_cursor e).code ≠ ErrorCode.InvalidCredentials)
    ∧ (∀ e : String, (from_async_graphql e).code ≠ ErrorCode.InvalidCredentials) := by
  refine ⟨?_, ?_, ?_, ?_, ?_, ?_⟩
  · intro e r h
    unfold from_diesel at h
    split at h
    · split at h
      · split at h
        · exact Option.noConfusion h
        · split at h
          · exact Option.noConfusion h
          · injection h with h
            subst h
            simp [Error.unique]
      · injection h with h
        subst h
        simp [Error.unhandled]
    · injection h with h
      subst h
      simp [Error.unhandled]
  · intro e
    cases h : e.kind <;> simp [from_jsonwebtoken, h, Error.codeOnly, Error.unhandled]
  · intro e; simp [from_r2d2, Error.codeOnly]
  · intro e; simp [from_argon2, Error.unhandled]
  · intro e; simp [from_base64_cursor, Error.codeOnly]
  · intro e; simp [from_async_graphql, Error.server_error]

/-- C10 witness: the diesel part of the theorem applied at `NotFound`, whose
translation is `unhandled`. -/
theorem no_translator_invalid_credentials_witness :
    from_diesel DieselError.NotFound = some (Error.unhandled "Record not found")
    ∧ (Error.unhandled "Record not found").code ≠ ErrorCode.InvalidCredentials :=
  ⟨rfl, no_translator_invalid_credentials.1 DieselError.NotFound _ rfl⟩

/-! ## The diesel UniqueViolation branch: C1 and C2 -/

/-- `wordRun` splits off exactly `xs` when every character of `xs` is a word
character and the remainder starts with a non-word character. -/
theorem wordRun_word_stop (xs : List Char) (y : Char) (rest : List Char)
    (hx : ∀ ch ∈ xs, isWordChar ch = true) (hy : isWordChar y = false) :
    wordRun (xs ++ y :: rest) = (xs, y :: rest) := by
  induction xs with
  | nil => simp [wordRun, hy]
  | cons a as ih =>
    have ha : isWordChar a = true := hx a (by simp)
    have ih' := ih (fun ch hch => hx ch (by simp [hch]))
    simp [wordRun, ha, ih']

/-- The regex matches at a `(` followed by a word run and `)`: group 0 is the
parenthesized run (parentheses included), group 1 the run itself. -/
theorem matchAt_paren (cl rest : List Char)
    (hw : ∀ ch ∈ cl, isWordChar ch = true) :
    matchAt ('(' :: (cl ++ ')' :: rest)) = some ('(' :: (cl ++ [')']), cl) := by
  have h0 : isWordChar '(' = false := by decide
  have h1 : wordRun (cl ++ ')' :: rest) = (cl, ')' :: rest) :=
    wordRun_word_stop cl ')' rest hw (by decide)
  simp [matchAt, wordRun, h0, h1]

/-- Leftmost match of the regex on a detail string of the driver's
`Key (<column>)=...` shape: the match starts at the first `(`, so group 0 is
`(<column>)` and group 1 is `<column>`. -/
theorem findMatch_key_detail (cl rest : List Char)
    (hw : ∀ ch ∈ cl, isWordChar ch = true) :
    findMatch ('K' :: 'e' :: 'y' :: ' ' :: '(' :: (cl ++ ')' :: rest))
      = some ('(' :: (cl ++ [')']), cl) := by
  have m0 : matchAt ('K' :: 'e' :: 'y' :: ' ' :: '(' :: (cl ++ ')' :: rest)) = none := rfl
  have m1 : matchAt ('e' :: 'y' :: ' ' :: '(' :: (cl ++ ')' :: rest)) = none := rfl
  have m2 : matchAt ('y' :: ' ' :: '(' :: (cl ++ ')' :: rest)) = none := rfl
  have m3 : matchAt (' ' :: '(' :: (cl ++ ')' :: rest)) = none := rfl
  simp only [findMatch, m0, m1, m2, m3, matchAt_paren cl rest hw]

/-- C1: on a uniqueness violation whose detail text is absent, or present but
not matched by the regex, the translation does NOT return an `Unhandled`
error: it panics on an `unwrap` (modelled as `none`). -/
theorem diesel_unique_bad_detail_panics :
    from_diesel (.DatabaseError .UniqueViolation
      ⟨"duplicate key value violates unique constraint \"users_email_key\"", none⟩)
      = none
    ∧ from_diesel (.DatabaseError .UniqueViolation
      ⟨"duplicate key value violates unique constraint \"users_email_key\"",
       some "duplicate key value violates unique constraint \"users_email_key\""⟩)
      = none :=
  ⟨rfl, rfl⟩

/-- C2 counterexample: on the driver detail
`Key (username)=(esteban) already exists.` the translator does not produce the
claimed record (field `username`, message using the stored value `esteban`). -/
theorem diesel_unique_claimed_shape_fails :
    from_diesel (.DatabaseError .UniqueViolation
      ⟨"duplicate key value violates unique constraint",
       some "Key (username)=(esteban) already exists."⟩)
    ≠ some { field := some "username",
             message := some "A username with esteban already exists",
             code := ErrorCode.Unique } := by
  decide

/-- C2 (amended): on a well-formed detail `Key (<c>)=(<v>) already exists.`
with `<c>` a nonempty word-character column name, the translator yields code
`Unique`, field equal to the whole first parenthesized match `(<c>)`
(parentheses included), and message `A (<c>) with <c> already exists` — the
stored value `<v>` never appears. -/
theorem diesel_unique_wellformed_detail (c v : String) (_hne : c ≠ "")
    (h2 : ∀ ch ∈ c.data, isWordChar ch = true) :
    from_diesel (.DatabaseError .UniqueViolation
      ⟨"duplicate key value violates unique constraint",
       some ("Key (" ++ c ++ ")=(" ++ v ++ ") already exists.")⟩)
    = some { field := some ("(" ++ c ++ ")"),
             message := some ("A (" ++ c ++ ") with " ++ c ++ " already exists"),
             code := ErrorCode.Unique } := by
  have hK : ("Key (" : String).data = ['K', 'e', 'y', ' ', '('] := rfl
  have hM : (")=(" : String).data = [')', '=', '('] := rfl
  have hT : (") already exists." : String).data = ')' :: " already exists.".data := rfl
  have hdata : ("Key (" ++ c ++ ")=(" ++ v ++ ") already exists.").data
      = 'K' :: 'e' :: 'y' :: ' ' :: '(' ::
        (c.data ++ ')' :: ('=' :: '(' :: (v.data ++ ')' :: " already exists.".data))) := by
    simp [String.data_append, hK, hM, hT]
  have hfm := findMatch_key_detail c.data
    ('=' :: '(' :: (v.data ++ ')' :: " already exists.".data)) h2
  have hrc : regexCaptures ("Key (" ++ c ++ ")=(" ++ v ++ ") already exists.")
      = some (String.mk ('(' :: (c.data ++ [')'])), String.mk c.data) := by
    simp [regexCaptures, hdata, hfm]
  have hfield : String.mk ('(' :: (c.data ++ [')'])) = "(" ++ c ++ ")" := by
    apply String.ext
    simp [String.data_append]
  have hc : String.mk c.data = c := rfl
  have hmsg : "A " ++ ("(" ++ c ++ ")") ++ " with " ++ c ++ " already exists"
      = "A (" ++ c ++ ") with " ++ c ++ " already exists" := by
    apply String.ext
    simp [String.data_append]
  have step : from_diesel (.DatabaseError .UniqueViolation
      ⟨"duplicate key value violates unique constraint",
       some ("Key (" ++ c ++ ")=(" ++ v ++ ") already exists.")⟩)
      = match regexCaptures ("Key (" ++ c ++ ")=(" ++ v ++ ") already exists.") with
        | none => none
        | some caps => some (Error.unique caps.1 (some caps.2)) := rfl
  rw [step, hrc]
  simp only [Error.unique, hfield, hc]
  rw [hmsg]

/-- C2 witness: the amended theorem applied at column `username` and stored
value `esteban`. -/
theorem diesel_unique_wellformed_detail_witness :
    from_diesel (.DatabaseError .UniqueViolation
      ⟨"duplicate key value violates unique constraint",
       some ("Key (" ++ "username" ++ ")=(" ++ "esteban" ++ ") already exists.")⟩)
    = some { field := some ("(" ++ "username" ++ ")"),
             message := some ("A (" ++ "username" ++ ") with " ++ "username" ++ " already exists"),
             code := ErrorCode.Unique } :=
  diesel_unique_wellformed_detail "username" "esteban" (by decide) (by decide)
